import Mathlib

/-!
Verification of the browser-agent Chrome extension
(`extension/background.js`, `extension/websocket-manager.js`,
`extension/action-router.js` / `action-handlers.js`, `extension/utils.js`)
against its natural-language specification.

The JavaScript is shallowly embedded: each handler becomes a total Lean
function over an explicit model of the browser environment (active tab,
page contents, capture API), fallible code returns `Except`, and the
effects the handlers perform (tab updates, scheduled timers, sent frames,
user-visible messages) are reified as inductive effect values returned by
the functions.
-/

namespace PointAndClick

/-! ## String primitives

JavaScript string operations are modelled character-wise over `List Char`
(the JS originals operate on code units; the handlers only ever apply them
to plain text). -/

/-- JS `s.startsWith(p)`. -/
def strStartsWith (s p : String) : Bool :=
  p.toList.isPrefixOf s.toList

/-- JS `s.slice(0, n)` / `s.substring(0, n)`: the first `n` characters. -/
def strTake (s : String) (n : Nat) : String :=
  ⟨s.toList.take n⟩

/-- JS `s.trim()`: strip leading and trailing whitespace. -/
def strTrim (s : String) : String :=
  ⟨((s.toList.dropWhile Char.isWhitespace).reverse.dropWhile
      Char.isWhitespace).reverse⟩

/-- JS `s.toLowerCase()`. -/
def strToLower (s : String) : String :=
  ⟨s.toList.map Char.toLower⟩

/-- JS `s.split(',')` on a list of characters: cut at every comma. -/
def splitCommaAux : List Char → List Char → List String
  | [], acc => [⟨acc.reverse⟩]
  | c :: rest, acc =>
    if c = ',' then ⟨acc.reverse⟩ :: splitCommaAux rest []
    else splitCommaAux rest (c :: acc)

/-- JS `s.split(',')`. -/
def splitComma (s : String) : List String :=
  splitCommaAux s.toList []

/-! ## URL helpers (`utils.js` URLUtils, `background.js` isForbidden) -/

/-- `isForbidden` from `background.js` / `URLUtils.isForbidden` in `utils.js`:
a URL is forbidden when it begins with one of the four privileged schemes. -/
def isForbidden (url : String) : Bool :=
  ["chrome://", "edge://", "about:", "chrome-extension://"].any
    (fun p => strStartsWith url p)

/-- Characters allowed in a URL scheme after the first letter. -/
def isSchemeChar (c : Char) : Bool :=
  c.isAlpha || c.isDigit || c = '+' || c = '-' || c = '.'

/-- Model of `URLUtils.isValid` from `utils.js`, i.e. of `new URL(url)`
succeeding.  The WHATWG URL parser is platform code, not part of this
repository; we model the scheme requirement it imposes on absolute URLs: the
string must begin with an ASCII letter, continue with scheme characters, and
reach a colon.  Every string accepted by `new URL` satisfies this condition,
so a string rejected here is rejected by the real parser as well. -/
def isValidURL (url : String) : Bool :=
  let scheme := url.toList.takeWhile (fun c => c ≠ ':')
  decide (scheme.length < url.toList.length) && !scheme.isEmpty &&
    (scheme.headI.isAlpha && scheme.all isSchemeChar)

/-! ## Browser state model -/

/-- A browser tab as seen through `chrome.tabs.query`: its numeric id and its
current URL.  A JavaScript falsy id (`!tab.id`) is modelled by id `0`. -/
structure Tab where
  id : Nat
  url : String
deriving DecidableEq, Repr

/-- The part of the browser the handlers consult: the active tab of the
current window, when one exists. -/
structure BrowserState where
  activeTab : Option Tab
deriving DecidableEq, Repr

/-- `getActiveTabSafe` (`background.js` / `action-handlers.js`): query the
active tab, throw when there is none (or its id is falsy), throw when its URL
has a forbidden scheme, otherwise return it. -/
def getActiveTabSafe (st : BrowserState) : Except String Tab :=
  match st.activeTab with
  | none => .error "No active tab"
  | some t =>
    if t.id = 0 then .error "No active tab"
    else if isForbidden t.url then
      .error ("Unsupported scheme for scripting: " ++ t.url)
    else .ok t

/-! ## Reconnection (`websocket-manager.js` attemptReconnect / handleOpen,
`background.js` attemptReconnect / ws.onopen) -/

def MAX_RECONNECT_ATTEMPTS : Nat := 5

/-- Base reconnect delay in milliseconds. -/
def RECONNECT_DELAY : Nat := 1000

/-- What one call of `attemptReconnect` does besides updating the counter. -/
inductive ReconnectEffect where
  /-- `setTimeout(connect, delay)` was scheduled with this delay (ms). -/
  | schedule (delayMs : Nat)
  /-- `chrome.notifications.create(...)` was called; nothing was scheduled. -/
  | notifyUser
deriving DecidableEq, Repr

/-- `attemptReconnect`: at the cap, create the user-visible message and stop;
below it, increment the counter and schedule a reconnect after
`RECONNECT_DELAY * 2 ^ (attempts - 1)` ms. -/
def attemptReconnect (reconnectAttempts : Nat) : Nat × ReconnectEffect :=
  if MAX_RECONNECT_ATTEMPTS ≤ reconnectAttempts then
    (reconnectAttempts, .notifyUser)
  else
    let attempts := reconnectAttempts + 1
    (attempts, .schedule (RECONNECT_DELAY * 2 ^ (attempts - 1)))

/-- `handleOpen` / `ws.onopen`: a successful open resets the counter to 0. -/
def handleOpen (_reconnectAttempts : Nat) : Nat := 0

/-- Counter value after `k` consecutive failed attempts starting from a fresh
connection (counter 0), each socket close invoking `attemptReconnect` once. -/
def counterAfter : Nat → Nat
  | 0 => 0
  | k + 1 => (attemptReconnect (counterAfter k)).1

/-! ## Navigation (`background.js` navigateTo, `action-handlers.js`
NavigateHandler.handle) -/

/-- The tab operation `navigateTo` performs when it does not throw. -/
inductive NavEffect where
  /-- `chrome.tabs.create({url, active: true})`. -/
  | createTab (url : String)
  /-- `chrome.tabs.update(tabId, {url})`. -/
  | updateTab (tabId : Nat) (url : String)
deriving DecidableEq, Repr

/-- The URL a navigation effect drives the browser to. -/
def NavEffect.target : NavEffect → String
  | .createTab url => url
  | .updateTab _ url => url

/-- `navigateTo(url)` from `background.js`: throw when `url` is falsy;
with no active tab, create one at `url`; when the active tab's own URL is
forbidden for scripting, still update it to `url`; otherwise update the
active tab to `url`.  (`isForbidden` is applied to the active tab's current
URL only, never to the requested `url`.) -/
def navigateTo (url : String) (st : BrowserState) : Except String NavEffect :=
  if url = "" then .error "navigate requires payload.url"
  else
    match st.activeTab with
    | none => .ok (.createTab url)
    | some active =>
      if active.id = 0 then .ok (.createTab url)
      else if isForbidden active.url then .ok (.updateTab active.id url)
      else .ok (.updateTab active.id url)

/-! ## WebSocket message handling (`background.js` ws.onmessage) -/

/-- A server→extension action envelope after `JSON.parse`, restricted to the
fields `ws.onmessage` inspects.  `none` models an absent field. -/
structure WSMessage where
  type? : Option String
  id? : Option String
  action? : Option String
deriving DecidableEq, Repr

/-- A received WebSocket frame: raw text that fails `JSON.parse`, JSON that
is not an object (or is `null`), or a parsed object message. -/
inductive Frame where
  | malformed (raw : String)
  | nonObject
  | parsed (msg : WSMessage)
deriving DecidableEq, Repr

/-- Body of a result frame sent back to the server. -/
inductive ResultBody (α : Type) where
  /-- `{status: "success", data}`. -/
  | success (data : α)
  /-- `{status: "error", error}`. -/
  | failure (error : String)
deriving DecidableEq, Repr

/-- A frame the extension sends in reaction to a received frame. -/
inductive OutFrame (α : Type) where
  /-- `{type: "pong"}`. -/
  | pong
  /-- `{id, status, data?/error?}`. -/
  | result (id : String) (body : ResultBody α)
deriving DecidableEq, Repr

/-- Is this outgoing frame a result frame carrying the given id? -/
def OutFrame.isResultFor {α : Type} (i : String) : OutFrame α → Bool
  | .pong => false
  | .result j _ => j = i

/-- The result frame `ws.onmessage` sends for a handled action, from the
outcome of `handleAction`'s promise. -/
def resultFrame {α : Type} (i : String) : Except String α → OutFrame α
  | .ok data => .result i (.success data)
  | .error e => .result i (.failure e)

/-- `ws.onmessage` from `background.js`, with the action router abstracted as
`handler`: unparsable frames are dropped; `{type:"ping"}` is answered with a
pong; non-objects and objects lacking `id` or `action` are dropped; an action
envelope is handled and exactly one correlated result frame is sent, success
or error following the handler's outcome.  The returned list is the list of
frames passed to `wsSend`. -/
def onmessage {α : Type} (frame : Frame)
    (handler : WSMessage → Except String α) : List (OutFrame α) :=
  match frame with
  | .malformed _ => []
  | .nonObject => []
  | .parsed msg =>
    if msg.type? = some "ping" then [.pong]
    else
      match msg.id?, msg.action? with
      | some i, some _ => [resultFrame i (handler msg)]
      | _, _ => []

/-! ## Pending responses (`websocket-manager.js` createResponseFuture /
resolveResponse and the timeout callback) -/

/-- The `pendingResponses` JavaScript `Map`, as an association list from
action id to the waiter's `setTimeout` handle.  `Map` insertion order is
modelled by list order. -/
abbrev PendingMap := List (String × Nat)

/-- The keys of the pending map. -/
def pendingIds (m : PendingMap) : List String := m.map (fun e => e.1)

/-- `Map.get`: the binding for a key, if present (first occurrence). -/
def mapFind (k : String) : PendingMap → Option Nat
  | [] => none
  | e :: rest => if e.1 = k then some e.2 else mapFind k rest

/-- `Map.set`: replace an existing binding in place, else append. -/
def mapSet (k : String) (v : Nat) : PendingMap → PendingMap
  | [] => [(k, v)]
  | e :: rest => if e.1 = k then (k, v) :: rest else e :: mapSet k v rest

/-- `Map.delete`: remove the binding for a key. -/
def mapDelete (k : String) : PendingMap → PendingMap
  | [] => []
  | e :: rest => if e.1 = k then rest else e :: mapDelete k rest

/-- The per-call deadline of a waiter, in milliseconds (`setTimeout(...,
20000)` in `createResponseFuture`). -/
def ACTION_TIMEOUT_MS : Nat := 20000

/-- `createResponseFuture(actionId)`: register the waiter (with the handle
`timerId` of the timer just started) in `pendingResponses` and schedule its
timeout; returns the new map and the scheduled delay. -/
def createResponseFuture (actionId : String) (timerId : Nat)
    (m : PendingMap) : PendingMap × Nat :=
  (mapSet actionId timerId m, ACTION_TIMEOUT_MS)

/-- How one call of the timeout callback completes the waiter: it deletes the
entry and calls `reject(new Error('Action timeout'))`. -/
def timeoutExpire (actionId : String) (m : PendingMap) :
    PendingMap × String :=
  (mapDelete actionId m, "Action timeout")

/-- What a call of `resolveResponse` did. -/
inductive ResolveEffect (α : Type) where
  /-- `clearTimeout(pending.timeout)`, `pending.resolve(response)`, and the
  entry was deleted. -/
  | completed (timerId : Nat) (response : α)
  /-- No entry for the id: no waiter was resolved, nothing changed. -/
  | dropped
deriving DecidableEq, Repr

/-- `resolveResponse(actionId, response)`: when a waiter is pending under the
id, clear its timer, resolve it with the response and delete the entry;
otherwise do nothing. -/
def resolveResponse {α : Type} (actionId : String) (response : α)
    (m : PendingMap) : PendingMap × ResolveEffect α :=
  match mapFind actionId m with
  | some timerId => (mapDelete actionId m, .completed timerId response)
  | none => (m, .dropped)

/-! ## Payload validation and routing (`action-router.js`, embedded at the
end of `popup.js` in this source tree) -/

/-- An action payload, restricted to the fields `validatePayload` and the
handlers inspect.  `none` models an absent JSON field. -/
structure Payload where
  url : Option String := none
  selector : Option String := none
  key : Option String := none
  text : Option String := none
  index : Option Int := none
  id : Option String := none
  name : Option String := none
  ariaLabel : Option String := none
  role : Option String := none
  description : Option String := none
  limit : Option Nat := none
deriving DecidableEq, Repr

/-- JavaScript truthiness of an optional string field: present and
non-empty. -/
def truthy : Option String → Bool
  | none => false
  | some s => s ≠ ""

/-- `smartClick`'s `hasIdentifier` disjunction from `validatePayload`. -/
def hasIdentifier (p : Payload) : Bool :=
  truthy p.selector || truthy p.id || truthy p.name || truthy p.ariaLabel ||
    truthy p.role || truthy p.text || truthy p.description

/-- `validatePayload(action, payload)` from `action-router.js`: per-action
required-field checks; actions without an entry pass. -/
def validatePayload (action : String) (p : Payload) : Except String Unit :=
  match action with
  | "navigate" =>
    if truthy p.url then .ok () else .error "navigate requires payload.url"
  | "waitFor" =>
    if truthy p.selector then .ok ()
    else .error "waitFor requires payload.selector"
  | "click" =>
    if truthy p.selector then .ok ()
    else .error "click requires payload.selector"
  | "type" =>
    if truthy p.selector then .ok ()
    else .error "type requires payload.selector"
  | "press" =>
    if truthy p.key then .ok () else .error "press requires payload.key"
  | "query" =>
    if truthy p.selector then .ok ()
    else .error "query requires payload.selector"
  | "smartClick" =>
    if hasIdentifier p then .ok ()
    else .error "smartClick requires at least one identifier"
  | "smartType" =>
    if truthy p.text then .ok ()
    else .error "smartType requires payload.text"
  | "switchTab" =>
    if p.index.isSome then .ok ()
    else .error "switchTab requires payload.index (number)"
  | "download" =>
    if truthy p.url then .ok () else .error "download requires payload.url"
  | _ => .ok ()

/-- The actions registered in the `actionHandlers` registry. -/
def knownActions : List String :=
  ["navigate", "waitFor", "click", "type", "press", "query", "getPageInfo",
   "getInteractiveElements", "smartClick", "smartType", "switchTab",
   "download", "uploadFile", "captureScreenshot"]

/-- How far `handleAction` from `action-router.js` got with a message. -/
inductive RouteOutcome where
  /-- `throw new Error('Unknown action: ...')` before validation. -/
  | rejectedUnknown (action : String)
  /-- `validatePayload` threw; the handler was never invoked. -/
  | rejectedInvalid (error : String)
  /-- `handler.execute(payload)` was invoked with this payload. -/
  | executed (action : String) (p : Payload)
deriving DecidableEq, Repr

/-- `handleAction` from `action-router.js`, up to the point where the
handler runs: look the action up in the registry, validate the payload, then
invoke the handler. -/
def handleActionRoute (action : String) (p : Payload) : RouteOutcome :=
  if action ∈ knownActions then
    match validatePayload action p with
    | .error e => .rejectedInvalid e
    | .ok () => .executed action p
  else .rejectedUnknown action

/-! ## Interactive elements (`background.js` getInteractiveElements,
`action-handlers.js` GetInteractiveElementsHandler) -/

/-- JavaScript `a || b` on strings: the left operand unless it is empty. -/
def jsOr (a b : String) : String := if a = "" then b else a

/-- A DOM element matched by the collector's selector, with the properties
the injected function reads.  Attribute getters that can yield `null` or
`undefined` are modelled after the source's `|| ''` coercion to strings. -/
structure PageElement where
  tagName : String
  innerText : String
  textContent : String
  id : String
  name : String
  placeholder : String
  role : String
  ariaLabel : String
  href : String
  value : String
  rectWidth : Nat
  rectHeight : Nat
  display : String
  visibility : String
deriving DecidableEq, Repr

/-- The collector's visibility test: the element is kept when its bounding
box has nonzero width and height, its display is not `none` and its
visibility is not `hidden` (the two `continue` guards, negated). -/
def elementVisible (el : PageElement) : Bool :=
  el.rectWidth ≠ 0 && el.rectHeight ≠ 0 &&
    el.display ≠ "none" && el.visibility ≠ "hidden"

/-- The descriptor pushed onto `out` for one element. -/
structure ElementDescriptor where
  type : String
  text : String
  id : String
  name : String
  placeholder : String
  role : String
  ariaLabel : String
  href : String
  value : String
deriving DecidableEq, Repr

/-- The object literal pushed for an element: lower-cased tag, trimmed text
truncated to 120 characters, and the remaining fields verbatim. -/
def describeElement (el : PageElement) : ElementDescriptor where
  type := strToLower el.tagName
  text := strTake (strTrim (jsOr el.innerText el.textContent)) 120
  id := el.id
  name := el.name
  placeholder := el.placeholder
  role := el.role
  ariaLabel := el.ariaLabel
  href := el.href
  value := el.value

/-- The collector loop over the matched elements: skip invisible elements,
push a descriptor for each visible one, and `break` once `out.length >= 30`
(checked after the push); `count` is `out.length` so far. -/
def collectGo : List PageElement → Nat → List ElementDescriptor
  | [], _ => []
  | el :: rest, count =>
    if elementVisible el then
      if 30 ≤ count + 1 then [describeElement el]
      else describeElement el :: collectGo rest (count + 1)
    else collectGo rest count

/-- The injected collector function of `getInteractiveElements`, applied to
the elements `document.querySelectorAll` matched, in document order. -/
def collectInteractive (els : List PageElement) : List ElementDescriptor :=
  collectGo els 0

/-- `getInteractiveElements`: get the active tab safely and run the injected
collector; any thrown error — no active tab, forbidden scheme — yields `[]`
via the `catch`, and a missing script result (`r[0]?.result || []`) also
yields `[]`.  `page = none` models the script producing no result. -/
def getInteractiveElements (st : BrowserState)
    (page : Option (List PageElement)) : List ElementDescriptor :=
  match getActiveTabSafe st with
  | .error _ => []
  | .ok _ =>
    match page with
    | none => []
    | some els => collectInteractive els

/-! ## Page info (`background.js` getPageInfo, `action-handlers.js`
GetPageInfoHandler) -/

/-- What the injected page-info function reads from the page. -/
structure PageInfo where
  url : String
  title : String
  readyState : String
deriving DecidableEq, Repr

/-- The `diagnostics` object of a page-info response. -/
structure Diagnostics where
  error : Option String
deriving DecidableEq, Repr

/-- The object `getPageInfo` resolves with. -/
structure PageInfoResponse where
  url : String
  title : String
  readyState : String
  diagnostics : Diagnostics
deriving DecidableEq, Repr

/-- `getPageInfo`: on a safe active tab, the page's url, title and
ready-state with empty diagnostics; when `getActiveTabSafe` throws, empty
strings with the thrown message as `diagnostics.error`. -/
def getPageInfo (st : BrowserState) (page : PageInfo) : PageInfoResponse :=
  match getActiveTabSafe st with
  | .ok _ =>
    { url := page.url, title := page.title, readyState := page.readyState,
      diagnostics := ⟨none⟩ }
  | .error e =>
    { url := "", title := "", readyState := "", diagnostics := ⟨some e⟩ }

/-! ## DOM query (`background.js` queryDOM, `action-handlers.js`
QueryHandler) -/

/-- An element found by `document.querySelector` in the query script. -/
structure QueryElement where
  innerText : String
  textContent : String
deriving DecidableEq, Repr

/-- The document as the query script sees it: the body's `innerText` and the
`querySelector` lookup. -/
structure QueryPage where
  bodyInnerText : String
  find : String → Option QueryElement

/-- The injected query function: for `body`, the body text truncated to
`lim`; otherwise the matched element's `innerText` falling back to
`textContent`, truncated — or the empty string when nothing matches. -/
def queryScript (sel : String) (lim : Nat) (page : QueryPage) : String :=
  if sel = "body" then strTake page.bodyInnerText lim
  else
    match page.find sel with
    | none => ""
    | some el => strTake (jsOr el.innerText el.textContent) lim

/-- `queryDOM(selector, limit = 500)`: throw on a falsy selector, get the
active tab safely, then run the injected query; an absent `limit` defaults
to 500. -/
def queryDOM (sel : String) (limit? : Option Nat) (st : BrowserState)
    (page : QueryPage) : Except String String :=
  if sel = "" then .error "query requires selector"
  else
    match getActiveTabSafe st with
    | .error e => .error e
    | .ok _ => .ok (queryScript sel (limit?.getD 500) page)

/-! ## Screenshot (`background.js` captureScreenshot,
`action-handlers.js` CaptureScreenshotHandler) -/

/-- The environment `captureScreenshot` consults: the active tab and the
outcome of `chrome.tabs.captureVisibleTab` (a data URL, or a thrown
error). -/
structure CaptureEnv where
  activeTab : Option Tab
  captureResult : Except String String
deriving Repr

/-- `dataUrl.split(',')[1] || ''`: the second comma-separated segment of the
data URL — its base64 payload — or the empty string. -/
def base64Payload (dataUrl : String) : String :=
  (splitComma dataUrl).getD 1 ""

/-- `captureScreenshot`: validate the active tab, capture the visible tab
and return the base64 payload of the PNG data URL; every failure is caught
and returns the empty string, so the function never throws. -/
def captureScreenshot (env : CaptureEnv) : String :=
  match env.activeTab with
  | none => ""
  | some t =>
    if t.id = 0 then ""
    else
      match env.captureResult with
      | .error _ => ""
      | .ok dataUrl => base64Payload dataUrl

/-- The action router's `captureScreenshot` branch as `ws.onmessage` sees
it: the handler's promise, which always resolves — with the screenshot or
with the empty string — because `captureScreenshot` traps every failure. -/
def captureScreenshotOutcome (env : CaptureEnv) : Except String String :=
  .ok (captureScreenshot env)

/-! ## Helper lemmas -/

theorem strTake_length_le (s : String) (n : Nat) : (strTake s n).length ≤ n := by
  simp [strTake]

theorem getActiveTabSafe_error_ne (st : BrowserState) (e : String)
    (h : getActiveTabSafe st = .error e) : e ≠ "" := by
  unfold getActiveTabSafe at h
  split at h
  · injection h with h'
    subst h'
    decide
  · split at h
    · injection h with h'
      subst h'
      decide
    · split at h
      · injection h with h'
        subst h'
        intro hc
        have := congrArg String.length hc
        simp [String.length_append] at this
        exact absurd this.1 (by decide)
      · cases h

theorem mapFind_eq_none_of_not_mem (k : String) (m : PendingMap)
    (h : k ∉ pendingIds m) : mapFind k m = none := by
  induction m with
  | nil => rfl
  | cons e rest ih =>
    obtain ⟨k', v'⟩ := e
    simp only [pendingIds, List.map_cons, List.mem_cons, not_or] at h
    simp only [mapFind]
    rw [if_neg (fun he => h.1 he.symm)]
    exact ih (by simpa [pendingIds] using h.2)

theorem mapFind_mapSet_self (k : String) (v : Nat) (m : PendingMap) :
    mapFind k (mapSet k v m) = some v := by
  induction m with
  | nil => simp [mapSet, mapFind]
  | cons e rest ih =>
    obtain ⟨k', v'⟩ := e
    by_cases he : k' = k
    · subst he
      simp [mapSet, mapFind]
    · simp only [mapSet, if_neg he, mapFind]
      exact ih

theorem pendingIds_mapSet (k : String) (v : Nat) (m : PendingMap) :
    pendingIds (mapSet k v m) =
      if k ∈ pendingIds m then pendingIds m else pendingIds m ++ [k] := by
  induction m with
  | nil => simp [mapSet, pendingIds]
  | cons e rest ih =>
    obtain ⟨k', v'⟩ := e
    by_cases he : k' = k
    · subst he
      simp [mapSet, pendingIds]
    · simp only [mapSet, if_neg he, pendingIds, List.map_cons] at ih ⊢
      rw [ih]
      have hkk : ¬k = k' := fun hcontra => he hcontra.symm
      by_cases hk : k ∈ rest.map (fun e => e.1)
      · rw [if_pos hk, if_pos (by simp [hk])]
      · rw [if_neg hk, if_neg (by simp [hk, hkk])]
        simp

theorem nodup_pendingIds_mapSet (k : String) (v : Nat) (m : PendingMap)
    (h : (pendingIds m).Nodup) : (pendingIds (mapSet k v m)).Nodup := by
  rw [pendingIds_mapSet]
  by_cases hk : k ∈ pendingIds m
  · simp only [if_pos hk]
    exact h
  · simp only [if_neg hk]
    simp [List.nodup_append, h, hk]

theorem pendingIds_mapDelete_sublist (k : String) (m : PendingMap) :
    (pendingIds (mapDelete k m)).Sublist (pendingIds m) := by
  induction m with
  | nil => simp [mapDelete, pendingIds]
  | cons e rest ih =>
    obtain ⟨k', v'⟩ := e
    by_cases he : k' = k
    · simp only [mapDelete, if_pos he, pendingIds, List.map_cons]
      exact List.sublist_cons_self _ _
    · simp only [mapDelete, if_neg he, pendingIds, List.map_cons]
      exact ih.cons₂ _

theorem nodup_pendingIds_mapDelete (k : String) (m : PendingMap)
    (h : (pendingIds m).Nodup) : (pendingIds (mapDelete k m)).Nodup :=
  h.sublist (pendingIds_mapDelete_sublist k m)

theorem mapFind_mapDelete_self (k : String) (m : PendingMap)
    (h : (pendingIds m).Nodup) : mapFind k (mapDelete k m) = none := by
  induction m with
  | nil => rfl
  | cons e rest ih =>
    obtain ⟨k', v'⟩ := e
    simp only [pendingIds, List.map_cons, List.nodup_cons] at h
    by_cases he : k' = k
    · subst he
      simp only [mapDelete, if_pos rfl]
      exact mapFind_eq_none_of_not_mem k' rest (by simpa [pendingIds] using h.1)
    · simp only [mapDelete, if_neg he, mapFind]
      exact ih (by simpa [pendingIds] using h.2)

theorem collectGo_length (els : List PageElement) :
    ∀ c : Nat, c < 30 → (collectGo els c).length + c ≤ 30 := by
  induction els with
  | nil => intro c hc; simp [collectGo]; omega
  | cons el rest ih =>
    intro c hc
    simp only [collectGo]
    by_cases hv : elementVisible el
    · rw [if_pos hv]
      by_cases h30 : 30 ≤ c + 1
      · rw [if_pos h30]; simp; omega
      · rw [if_neg h30]
        have := ih (c + 1) (by omega)
        simp only [List.length_cons]
        omega
    · rw [if_neg hv]
      exact ih c hc

theorem collectGo_mem (els : List PageElement) :
    ∀ (c : Nat) (d : ElementDescriptor), d ∈ collectGo els c →
      ∃ el, el ∈ els ∧ elementVisible el = true ∧ d = describeElement el := by
  induction els with
  | nil => intro c d hd; simp [collectGo] at hd
  | cons el rest ih =>
    intro c d hd
    simp only [collectGo] at hd
    by_cases hv : elementVisible el
    · rw [if_pos hv] at hd
      by_cases h30 : 30 ≤ c + 1
      · rw [if_pos h30] at hd
        simp only [List.mem_singleton] at hd
        exact ⟨el, List.mem_cons_self el rest, hv, hd⟩
      · rw [if_neg h30] at hd
        rcases List.mem_cons.mp hd with h | h
        · exact ⟨el, List.mem_cons_self el rest, hv, h⟩
        · obtain ⟨el', hmem, hvis, heq⟩ := ih (c + 1) d h
          exact ⟨el', List.mem_cons_of_mem el hmem, hvis, heq⟩
    · rw [if_neg hv] at hd
      obtain ⟨el', hmem, hvis, heq⟩ := ih c d hd
      exact ⟨el', List.mem_cons_of_mem el hmem, hvis, heq⟩

/-! ## Claim theorems -/

/-- C1 as stated is false: a navigate request whose `payload.url` begins
with `chrome://` is not rejected — starting from an ordinary active tab, the
handler performs `chrome.tabs.update` to the forbidden URL. -/
theorem C1_counterexample :
    isForbidden "chrome://settings/" = true ∧
    navigateTo "chrome://settings/" ⟨some ⟨1, "https://example.com/"⟩⟩ =
      .ok (.updateTab 1 "chrome://settings/") := by
  constructor <;> rfl

/-- C1 (amended): the navigate handler rejects a request with an error
before any tab update or creation exactly when `payload.url` is empty or
absent; for every non-empty url — forbidden-scheme urls included — it
performs a tab update or creation whose target is that url.  `isForbidden`
is applied only to the active tab's current URL, never to the requested
one. -/
theorem C1_navigate_gate (url : String) (st : BrowserState) :
    (url = "" → navigateTo url st = .error "navigate requires payload.url") ∧
    (url ≠ "" → ∃ eff, navigateTo url st = .ok eff ∧ eff.target = url) := by
  obtain ⟨tab?⟩ := st
  constructor
  · intro h
    simp [navigateTo, h]
  · intro h
    cases tab? with
    | none => exact ⟨.createTab url, by simp [navigateTo, h], rfl⟩
    | some active =>
      by_cases h0 : active.id = 0
      · exact ⟨.createTab url, by simp [navigateTo, h, h0], rfl⟩
      · by_cases hf : isForbidden active.url
        · exact ⟨.updateTab active.id url, by simp [navigateTo, h, h0, hf], rfl⟩
        · exact ⟨.updateTab active.id url, by simp [navigateTo, h, h0, hf], rfl⟩

/-- Witness for the amended C1 at a concrete forbidden target. -/
theorem C1_navigate_gate_witness :
    ∃ eff, navigateTo "about:blank" ⟨some ⟨2, "https://a.com/"⟩⟩ = .ok eff ∧
      eff.target = "about:blank" :=
  (C1_navigate_gate "about:blank" ⟨some ⟨2, "https://a.com/"⟩⟩).2 (by decide)

/-- C2 as stated is false: a frame that parses as JSON and carries both `id`
and `action` but whose `type` is `"ping"` is answered with a pong and no
result frame at all — the ping check runs before the id/action check. -/
theorem C2_counterexample :
    (WSMessage.mk (some "ping") (some "7") (some "click")).id? = some "7" ∧
    (WSMessage.mk (some "ping") (some "7") (some "click")).action? =
      some "click" ∧
    onmessage (Frame.parsed ⟨some "ping", some "7", some "click"⟩)
      (fun _ => Except.ok "data") = ([.pong] : List (OutFrame String)) ∧
    (onmessage (Frame.parsed ⟨some "ping", some "7", some "click"⟩)
      (fun _ => Except.ok "data")).filter
        (OutFrame.isResultFor (α := String) "7") = [] := by
  refine ⟨rfl, rfl, rfl, rfl⟩

/-- C2 (amended): for every received frame that parses as a JSON object,
carries both an `id` and an `action` field, and whose `type` is not
`"ping"`, the extension sends exactly one result frame with that id —
status `success` with the handler's result when the handler resolves,
status `error` with the message when it throws; a frame that fails to
parse, is not an object, or lacks `id` or `action` (and is not a ping)
produces no outgoing frame. -/
theorem C2_result_frames {α : Type} (handler : WSMessage → Except String α) :
    (∀ msg i d, msg.type? ≠ some "ping" → msg.id? = some i →
        msg.action?.isSome = true → handler msg = .ok d →
        onmessage (.parsed msg) handler = [.result i (.success d)]) ∧
    (∀ msg i e, msg.type? ≠ some "ping" → msg.id? = some i →
        msg.action?.isSome = true → handler msg = .error e →
        onmessage (.parsed msg) handler = [.result i (.failure e)]) ∧
    (∀ raw, onmessage (.malformed raw) handler = []) ∧
    onmessage .nonObject handler = [] ∧
    (∀ msg, msg.type? ≠ some "ping" →
        msg.id? = none ∨ msg.action? = none →
        onmessage (.parsed msg) handler = []) := by
  refine ⟨?_, ?_, fun raw => rfl, rfl, ?_⟩
  · intro msg i d hping hid hact hok
    obtain ⟨a, ha⟩ := Option.isSome_iff_exists.mp hact
    simp [onmessage, hping, hid, ha, resultFrame, hok]
  · intro msg i e hping hid hact herr
    obtain ⟨a, ha⟩ := Option.isSome_iff_exists.mp hact
    simp [onmessage, hping, hid, ha, resultFrame, herr]
  · intro msg hping hmiss
    rcases hmiss with h | h <;> simp [onmessage, hping, h]

/-- Witness for the amended C2 at a concrete action envelope. -/
theorem C2_result_frames_witness :
    onmessage (.parsed ⟨none, some "42", some "getPageInfo"⟩)
        (fun _ : WSMessage => Except.ok (ε := String) "d") =
      [.result "42" (.success "d")] :=
  (C2_result_frames _).1 ⟨none, some "42", some "getPageInfo"⟩ "42" "d"
    (by decide) rfl rfl rfl

/-- C3: the n-th reconnection attempt after a close (n = 1..5) is scheduled
after exactly `1000 * 2 ^ (n - 1)` ms; once 5 consecutive attempts have
failed, a further close creates the user-visible message and schedules
nothing; a successful open resets the counter to 0. -/
theorem C3_reconnect_backoff :
    (∀ n : Nat, 1 ≤ n → n ≤ MAX_RECONNECT_ATTEMPTS →
      counterAfter (n - 1) = n - 1 ∧
      attemptReconnect (counterAfter (n - 1)) =
        (n, .schedule (RECONNECT_DELAY * 2 ^ (n - 1)))) ∧
    attemptReconnect (counterAfter MAX_RECONNECT_ATTEMPTS) =
      (MAX_RECONNECT_ATTEMPTS, .notifyUser) ∧
    (∀ a : Nat, handleOpen a = 0) := by
  refine ⟨?_, by decide, fun a => rfl⟩
  intro n h1 h5
  have h5' : n ≤ 5 := h5
  interval_cases n <;> exact ⟨by decide, by decide⟩

/-- Witness for C3 at the third attempt: delay 4000 ms. -/
theorem C3_reconnect_backoff_witness :
    counterAfter 2 = 2 ∧
    attemptReconnect (counterAfter 2) = (3, .schedule 4000) :=
  C3_reconnect_backoff.1 3 (by decide) (by decide)

/-- C4: a registered action id occupies at most one entry of
`pendingResponses` (keys stay nodup under `Map.set`), `createResponseFuture`
schedules the 20-second deadline, `resolveResponse` on a pending id clears
its timer, resolves the waiter with the response and deletes the entry, the
timeout callback rejects with `Action timeout` and deletes the entry, and a
`resolveResponse` for an id with no entry — after completion or after
timeout — resolves no waiter and changes nothing. -/
theorem C4_pending_map (actionId : String) (timerId : Nat) (m : PendingMap)
    (h : (pendingIds m).Nodup) :
    ((pendingIds (createResponseFuture actionId timerId m).1).Nodup ∧
      mapFind actionId (createResponseFuture actionId timerId m).1 =
        some timerId ∧
      (createResponseFuture actionId timerId m).2 = ACTION_TIMEOUT_MS) ∧
    (∀ (α : Type) (response : α) (t : Nat), mapFind actionId m = some t →
      resolveResponse actionId response m =
        (mapDelete actionId m, .completed t response) ∧
      mapFind actionId (mapDelete actionId m) = none) ∧
    (timeoutExpire actionId m = (mapDelete actionId m, "Action timeout") ∧
      mapFind actionId (mapDelete actionId m) = none ∧
      (pendingIds (mapDelete actionId m)).Nodup) ∧
    (∀ (α : Type) (response : α), mapFind actionId m = none →
      resolveResponse actionId response m = (m, .dropped)) := by
  refine ⟨⟨nodup_pendingIds_mapSet _ _ _ h, mapFind_mapSet_self _ _ _, rfl⟩,
    ?_, ⟨rfl, mapFind_mapDelete_self _ _ h, nodup_pendingIds_mapDelete _ _ h⟩,
    ?_⟩
  · intro α response t ht
    exact ⟨by simp [resolveResponse, ht], mapFind_mapDelete_self _ _ h⟩
  · intro α response hnone
    simp [resolveResponse, hnone]

/-- Witness for C4: registration, resolution and a late resolve at concrete
ids. -/
theorem C4_pending_map_witness :
    mapFind "a1" (createResponseFuture "a1" 7 []).1 = some 7 ∧
    resolveResponse "a1" "response" [("a1", 7)] =
      ([], ResolveEffect.completed 7 "response") ∧
    resolveResponse "a1" "late" ([] : PendingMap) = ([], .dropped) :=
  ⟨(C4_pending_map "a1" 7 [] (by simp [pendingIds])).1.2.1,
   ((C4_pending_map "a1" 7 [("a1", 7)] (by simp [pendingIds])).2.1
      String "response" 7 rfl).1,
   (C4_pending_map "a1" 7 [] (by simp [pendingIds])).2.2.2 String "late" rfl⟩

/-- C5 as stated is false: the navigate validation does not require a
syntactically valid URL — `URLUtils.isValid` is never consulted.  The string
`"not a valid url"` is not a valid URL, yet `validatePayload` accepts the
request and the handler performs the navigation. -/
theorem C5_counterexample :
    isValidURL "not a valid url" = false ∧
    validatePayload "navigate" { url := some "not a valid url" } = .ok () ∧
    navigateTo "not a valid url" ⟨some ⟨1, "https://example.com/"⟩⟩ =
      .ok (.updateTab 1 "not a valid url") := by
  refine ⟨by decide, rfl, rfl⟩

/-- C5 (amended): the navigate payload is validated before the handler runs
to require only a present, non-empty `url`; a request whose `url` is absent
or empty is rejected with an error before any navigation, but no syntactic
URL validity is enforced. -/
theorem C5_navigate_validation (p : Payload) (st : BrowserState) :
    (truthy p.url = false →
      validatePayload "navigate" p = .error "navigate requires payload.url" ∧
      navigateTo (p.url.getD "") st =
        .error "navigate requires payload.url") ∧
    (truthy p.url = true → validatePayload "navigate" p = .ok ()) := by
  constructor
  · intro h
    refine ⟨by simp [validatePayload, h], ?_⟩
    have hu : p.url.getD "" = "" := by
      cases hu : p.url with
      | none => rfl
      | some s =>
        rw [hu] at h
        simp only [truthy, ne_eq, decide_not, Bool.not_eq_false',
          decide_eq_true_eq] at h
        simp [h]
    simp [navigateTo, hu]
  · intro h
    simp [validatePayload, h]

/-- Witness for the amended C5 at an absent url. -/
theorem C5_navigate_validation_witness :
    validatePayload "navigate" { url := none } =
      .error "navigate requires payload.url" ∧
    navigateTo "" ⟨none⟩ = .error "navigate requires payload.url" :=
  (C5_navigate_validation { url := none } ⟨none⟩).1 rfl

/-- C6: a smartClick request whose payload has none of `selector`, `id`,
`name`, `ariaLabel`, `role`, `text`, `description` (all absent or falsy) is
rejected by the action router with an error before the handler executes;
when at least one is present, the handler is invoked. -/
theorem C6_smartClick_gate (p : Payload) :
    (hasIdentifier p = false →
      handleActionRoute "smartClick" p =
        .rejectedInvalid "smartClick requires at least one identifier") ∧
    (hasIdentifier p = true →
      handleActionRoute "smartClick" p = .executed "smartClick" p) := by
  constructor <;> intro h <;>
    simp [handleActionRoute, knownActions, validatePayload, h]

/-- Witness for C6: an identifier-less payload is rejected, a selector-only
payload reaches the handler. -/
theorem C6_smartClick_gate_witness :
    handleActionRoute "smartClick" {} =
      .rejectedInvalid "smartClick requires at least one identifier" ∧
    handleActionRoute "smartClick" { selector := some "#submit" } =
      .executed "smartClick" { selector := some "#submit" } :=
  ⟨(C6_smartClick_gate {}).1 rfl,
   (C6_smartClick_gate { selector := some "#submit" }).2 (by decide)⟩

/-- C7: `getInteractiveElements` always returns at most 30 descriptors;
every descriptor stems from a matched element that passed the visibility
checks and is exactly that element's descriptor (lower-cased tag, trimmed
text cut to 120 characters, and the id/name/placeholder/role/ariaLabel/
href/value fields); any collection failure — no active tab, forbidden
scheme, missing script result — yields the empty list rather than an
error. -/
theorem C7_interactive_elements (st : BrowserState)
    (page : Option (List PageElement)) :
    (getInteractiveElements st page).length ≤ 30 ∧
    (∀ d, d ∈ getInteractiveElements st page →
      d.text.length ≤ 120 ∧
      ∃ els el, page = some els ∧ el ∈ els ∧ elementVisible el = true ∧
        d = describeElement el) ∧
    (∀ e, getActiveTabSafe st = .error e →
      getInteractiveElements st page = []) ∧
    getInteractiveElements st none = [] := by
  refine ⟨?_, ?_, ?_, ?_⟩
  · unfold getInteractiveElements
    cases hts : getActiveTabSafe st with
    | error e => simp
    | ok t =>
      cases page with
      | none => simp
      | some els =>
        have := collectGo_length els 0 (by omega)
        simpa [collectInteractive] using this
  · intro d hd
    unfold getInteractiveElements at hd
    cases hts : getActiveTabSafe st with
    | error e => rw [hts] at hd; simp at hd
    | ok t =>
      rw [hts] at hd
      cases page with
      | none => simp at hd
      | some els =>
        obtain ⟨el, hmem, hvis, heq⟩ :=
          collectGo_mem els 0 d (by simpa [collectInteractive] using hd)
        refine ⟨?_, els, el, rfl, hmem, hvis, heq⟩
        rw [heq]
        exact strTake_length_le _ _
  · intro e he
    simp [getInteractiveElements, he]
  · unfold getInteractiveElements
    cases getActiveTabSafe st <;> rfl

/-- Witness for C7: with no active tab the collector returns `[]`. -/
theorem C7_interactive_elements_witness :
    getInteractiveElements ⟨none⟩ (some []) = [] :=
  (C7_interactive_elements ⟨none⟩ (some [])).2.2.1 "No active tab" rfl

/-- C8: `getPageInfo` never throws — with a safe active tab it returns the
page's url, title and ready-state with empty diagnostics, and on every
collection failure (no active tab, forbidden scheme) it returns empty
strings with a non-empty `diagnostics.error`; the failure surfaces as data,
not as an error. -/
theorem C8_page_info (st : BrowserState) (page : PageInfo) :
    (∀ t, getActiveTabSafe st = .ok t →
      getPageInfo st page =
        ⟨page.url, page.title, page.readyState, ⟨none⟩⟩) ∧
    (∀ e, getActiveTabSafe st = .error e →
      getPageInfo st page = ⟨"", "", "", ⟨some e⟩⟩ ∧ e ≠ "") ∧
    (st.activeTab = none →
      getPageInfo st page = ⟨"", "", "", ⟨some "No active tab"⟩⟩) := by
  refine ⟨?_, ?_, ?_⟩
  · intro t ht
    simp [getPageInfo, ht]
  · intro e he
    exact ⟨by simp [getPageInfo, he], getActiveTabSafe_error_ne st e he⟩
  · intro hnone
    simp [getPageInfo, getActiveTabSafe, hnone]

/-- Witness for C8 with no active tab. -/
theorem C8_page_info_witness :
    getPageInfo ⟨none⟩ ⟨"https://example.com/", "Example", "complete"⟩ =
      ⟨"", "", "", ⟨some "No active tab"⟩⟩ ∧ "No active tab" ≠ "" :=
  (C8_page_info ⟨none⟩ ⟨"https://example.com/", "Example", "complete"⟩).2.1
    "No active tab" rfl

/-- C9: a query with a selector returns at most `limit` characters, `limit`
defaulting to 500 when absent: for `body` the truncated body text, otherwise
the truncated `innerText` (falling back to `textContent`) of the matched
element, and the empty string — not an error — when nothing matches. -/
theorem C9_query (sel : String) (limit? : Option Nat) (st : BrowserState)
    (page : QueryPage) (t : Tab) (hsel : sel ≠ "")
    (ht : getActiveTabSafe st = .ok t) :
    queryDOM sel limit? st page =
      .ok (queryScript sel (limit?.getD 500) page) ∧
    (queryScript sel (limit?.getD 500) page).length ≤ limit?.getD 500 ∧
    (sel = "body" →
      queryScript sel (limit?.getD 500) page =
        strTake page.bodyInnerText (limit?.getD 500)) ∧
    (sel ≠ "body" → page.find sel = none →
      queryScript sel (limit?.getD 500) page = "") ∧
    (∀ el, sel ≠ "body" → page.find sel = some el →
      queryScript sel (limit?.getD 500) page =
        strTake (jsOr el.innerText el.textContent) (limit?.getD 500)) := by
  refine ⟨by simp [queryDOM, hsel, ht], ?_, ?_, ?_, ?_⟩
  · unfold queryScript
    by_cases hb : sel = "body"
    · rw [if_pos hb]
      exact strTake_length_le _ _
    · rw [if_neg hb]
      cases hf : page.find sel with
      | none => simp
      | some el => exact strTake_length_le _ _
  · intro hb
    simp [queryScript, hb]
  · intro hb hf
    simp [queryScript, hb, hf]
  · intro el hb hf
    simp [queryScript, hb, hf]

/-- Witness for C9 on a concrete page: `body` query with the default
limit. -/
theorem C9_query_witness :
    queryDOM "body" none ⟨some ⟨1, "https://example.com/"⟩⟩
        ⟨"Hello world", fun _ => none⟩ =
      .ok (queryScript "body" 500 ⟨"Hello world", fun _ => none⟩) :=
  (C9_query "body" none ⟨some ⟨1, "https://example.com/"⟩⟩
      ⟨"Hello world", fun _ => none⟩ ⟨1, "https://example.com/"⟩
      (by decide) rfl).1

/-- C10: `captureScreenshot` never throws and never produces an error
result: with no active tab or a failing capture API it returns the empty
string, on success the base64 payload of the PNG data URL; consequently the
screenshot action is always answered with a `success` result frame. -/
theorem C10_screenshot (env : CaptureEnv) :
    (env.activeTab = none → captureScreenshot env = "") ∧
    (∀ t e, env.activeTab = some t → env.captureResult = .error e →
      captureScreenshot env = "") ∧
    (∀ t d, env.activeTab = some t → t.id ≠ 0 → env.captureResult = .ok d →
      captureScreenshot env = base64Payload d) ∧
    (∀ msg i, msg.type? ≠ some "ping" → msg.id? = some i →
      msg.action?.isSome = true →
      onmessage (.parsed msg) (fun _ => captureScreenshotOutcome env) =
        [.result i (.success (captureScreenshot env))]) := by
  refine ⟨?_, ?_, ?_, ?_⟩
  · intro h
    simp [captureScreenshot, h]
  · intro t e ht he
    simp [captureScreenshot, ht, he]
  · intro t d ht h0 hd
    simp [captureScreenshot, ht, h0, hd]
  · intro msg i hping hid hact
    obtain ⟨a, ha⟩ := Option.isSome_iff_exists.mp hact
    simp [onmessage, hping, hid, ha, captureScreenshotOutcome, resultFrame]

/-- Witness for C10: a concrete capture and its success result frame. -/
theorem C10_screenshot_witness :
    captureScreenshot ⟨some ⟨1, "https://example.com/"⟩,
        .ok "data:image/png;base64,QUJD"⟩ = "QUJD" ∧
    onmessage
        (.parsed ⟨none, some "9", some "captureScreenshot"⟩)
        (fun _ => captureScreenshotOutcome
          ⟨some ⟨1, "https://example.com/"⟩,
            .ok "data:image/png;base64,QUJD"⟩) =
      [.result "9" (.success "QUJD")] :=
  ⟨(C10_screenshot _).2.2.1 ⟨1, "https://example.com/"⟩
      "data:image/png;base64,QUJD" rfl (by decide) rfl,
   (C10_screenshot _).2.2.2 ⟨none, some "9", some "captureScreenshot"⟩ "9"
      (by decide) rfl rfl⟩

end PointAndClick
